import Mathlib

/-!
Verification of the xpath expression renderer.

The renderer (src/xpath/renderer.py) converts an immutable expression tree
into an XPath query string.  Its data model:

* `Literal` wraps a raw string emitted verbatim, never quoted.
* `Expression` carries a kind and an ordered argument list; an argument is a
  nested `Expression`, a `Literal`, a plain text string (quoted at render
  time), or a list of such values.  Python is dynamically typed, so an
  argument may also be a value of any other type; `Argument.other` stands
  for such a value, which `_convert_argument` resolves to Python `None`
  through its implicit fallthrough.

The expression construction module itself is not part of the available
sources; the kinds below follow the renderer dispatch table, plus the
string-oriented combinators the DSL layer references (starts_with,
substring, string_length, name), which the renderer has no template for.
-/

/-- Modelled from the spec: the closed NodeKind enumeration of the
expression module (the module itself is missing from the sources).  The
first sixteen members appear in the renderer dispatch table; the last four
are the string-oriented combinators referenced by the DSL layer
(prefix-match, substring, string-length, tag-name access) that have no
renderer template. -/
inductive ExpressionKind where
  | ANYWHERE
  | ATTR
  | CHILD
  | CONTAINS
  | DESCENDANT
  | EQUALITY
  | INVERSE
  | IS
  | NORMALIZED_SPACE
  | ONE_OF
  | OR
  | PREVIOUS_SIBLING
  | STRING
  | THIS_NODE
  | UNION
  | WHERE
  | STARTS_WITH
  | SUBSTRING
  | STRING_LENGTH
  | TAG_NAME
deriving DecidableEq, Repr

mutual

/-- An expression tree node: a kind plus an ordered argument list. -/
inductive Expression where
  | mk (kind : ExpressionKind) (arguments : List Argument)

/-- One argument of an expression node, after the Python value taxonomy
used by `Renderer._convert_argument`: a nested expression, a `Literal`
(raw token), a plain text string, a list of arguments, or a value of any
other Python type (`other`), which resolves to `None`. -/
inductive Argument where
  | expr (e : Expression)
  | lit (value : String)
  | text (value : String)
  | seq (elems : List Argument)
  | other

end

/-- The kind of an expression node. -/
def Expression.kind : Expression → ExpressionKind
  | .mk k _ => k

/-- The argument list of an expression node. -/
def Expression.arguments : Expression → List Argument
  | .mk _ args => args

/-- The result of `Renderer._convert_argument` on one argument: a Python
string, a Python list of resolved values, or Python `None` (the implicit
fallthrough for unsupported argument types). -/
inductive Resolved where
  | str (s : String)
  | seq (elems : List Resolved)
  | none

/-- Errors a render call can raise: `keyError` from the
`_RENDER_METHOD_NAMES[node.kind]` lookup on an unmapped kind, and
`typeError` from calling a render method with the wrong argument count or
applying len, iteration or str.join to an unsuitable value. -/
inductive RenderError where
  | keyError (kind : ExpressionKind)
  | typeError
deriving DecidableEq, Repr

mutual

/-- What Python str.format interpolation produces for a resolved value:
a string interpolates as itself, `None` as the text None, a list as its
repr.  String repr when the string holds both kinds of quote is not
modelled; no rendered template exercises it. -/
def pyStr : Resolved → String
  | .str s => s
  | .seq elems => "[" ++ pyReprList elems ++ "]"
  | .none => "None"

/-- Python repr of a resolved value, used when a list is interpolated. -/
def pyRepr : Resolved → String
  | .str s =>
      if s.contains (Char.ofNat 39) then
        "\"" ++ s ++ "\""
      else
        "'" ++ s ++ "'"
  | .seq elems => "[" ++ pyReprList elems ++ "]"
  | .none => "None"

/-- Comma-separated reprs of the elements of a Python list. -/
def pyReprList : List Resolved → String
  | [] => ""
  | [r] => pyRepr r
  | r :: rest => pyRepr r ++ ", " ++ pyReprList rest

end

/-- Python len and iteration applied to a resolved value, as
`_descendant` does to its element_names argument: a list yields its
elements, a string yields its characters as one-character strings, and
`None` raises a TypeError. -/
def pyElems : Resolved → Except RenderError (List Resolved)
  | .str s => .ok (s.toList.map fun c => Resolved.str (String.mk [c]))
  | .seq elems => .ok elems
  | .none => .error .typeError

/-- Python str.join over resolved values, which raises a TypeError if any
element is not a string. -/
def pyJoin (sep : String) : List Resolved → Except RenderError String
  | [] => .ok ""
  | [.str s] => .ok s
  | .str s :: r :: rest => do
      let t ← pyJoin sep (r :: rest)
      .ok (s ++ sep ++ t)
  | _ :: _ => .error .typeError

namespace Renderer

/-- Renderer._string_literal: wrap a plain text value in single quotes,
with no escaping of embedded quotes. -/
def _string_literal (s : String) : String := "'" ++ s ++ "'"

/-- Renderer._anywhere. -/
def _anywhere : List Resolved → Except RenderError String
  | [node] => .ok ("//" ++ pyStr node)
  | _ => .error .typeError

/-- Renderer._attribute. -/
def _attribute : List Resolved → Except RenderError String
  | [node, attribute_name] => .ok (pyStr node ++ "/@" ++ pyStr attribute_name)
  | _ => .error .typeError

/-- Renderer._child. -/
def _child : List Resolved → Except RenderError String
  | [parent, element_name] => .ok (pyStr parent ++ "/" ++ pyStr element_name)
  | _ => .error .typeError

/-- Renderer._contains. -/
def _contains : List Resolved → Except RenderError String
  | [e, value] => .ok ("contains(" ++ pyStr e ++ ", " ++ pyStr value ++ ")")
  | _ => .error .typeError

/-- Renderer._descendant: dispatch on the length of the element-name
list.  Python len and iteration also accept a string (character-wise) and
raise a TypeError on None. -/
def _descendant : List Resolved → Except RenderError String
  | [parent, element_names] => do
      let elems ← pyElems element_names
      match elems with
      | [] => .ok (pyStr parent ++ "//*")
      | [e] => .ok (pyStr parent ++ "//" ++ pyStr e)
      | es =>
          .ok (pyStr parent ++ "//*[" ++
            String.intercalate " | " (es.map fun e => "self::" ++ pyStr e) ++ "]")
  | _ => .error .typeError

/-- Renderer._equality. -/
def _equality : List Resolved → Except RenderError String
  | [expr1, expr2] => .ok (pyStr expr1 ++ " = " ++ pyStr expr2)
  | _ => .error .typeError

/-- Renderer._inverse. -/
def _inverse : List Resolved → Except RenderError String
  | [e] => .ok ("not(" ++ pyStr e ++ ")")
  | _ => .error .typeError

/-- Renderer._is: equality template in exact mode, containment template
otherwise. -/
def _is (exact : Bool) : List Resolved → Except RenderError String
  | [expr1, expr2] =>
      if exact then _equality [expr1, expr2] else _contains [expr1, expr2]
  | _ => .error .typeError

/-- Renderer._normalized_space. -/
def _normalized_space : List Resolved → Except RenderError String
  | [e] => .ok ("normalize-space(" ++ pyStr e ++ ")")
  | _ => .error .typeError

/-- Renderer._one_of: equality clauses joined with or, no enclosing
parentheses. -/
def _one_of : List Resolved → Except RenderError String
  | e :: values =>
      .ok (String.intercalate " or "
        (values.map fun value => pyStr e ++ " = " ++ pyStr value))
  | [] => .error .typeError

/-- Renderer._or: clauses joined with or, wrapped in parentheses;
str.join requires every operand to be a string. -/
def _or (exprs : List Resolved) : Except RenderError String := do
  let s ← pyJoin " or " exprs
  .ok ("(" ++ s ++ ")")

/-- Renderer._previous_sibling. -/
def _previous_sibling : List Resolved → Except RenderError String
  | [node, element_name] =>
      .ok (pyStr node ++ "/preceding-sibling::*[1]/self::" ++ pyStr element_name)
  | _ => .error .typeError

/-- Renderer._string_function. -/
def _string_function : List Resolved → Except RenderError String
  | [e] => .ok ("string(" ++ pyStr e ++ ")")
  | _ => .error .typeError

/-- Renderer._this_node. -/
def _this_node : List Resolved → Except RenderError String
  | [] => .ok "."
  | _ => .error .typeError

/-- Renderer._union: operands joined with a vertical bar; str.join
requires every operand to be a string. -/
def _union (exprs : List Resolved) : Except RenderError String :=
  pyJoin " | " exprs

/-- Renderer._where: the base followed by each predicate in square
brackets. -/
def _where : List Resolved → Except RenderError String
  | e :: predicate_exprs =>
      .ok (pyStr e ++
        String.join (predicate_exprs.map fun p => "[" ++ pyStr p ++ "]"))
  | [] => .error .typeError

/-- The renderer dispatch table _RENDER_METHOD_NAMES: a mapping from kind
to render method name, with no fallback or default entry. -/
def _RENDER_METHOD_NAMES : ExpressionKind → Option String
  | .ANYWHERE => some "_anywhere"
  | .ATTR => some "_attribute"
  | .CHILD => some "_child"
  | .CONTAINS => some "_contains"
  | .DESCENDANT => some "_descendant"
  | .EQUALITY => some "_equality"
  | .INVERSE => some "_inverse"
  | .IS => some "_is"
  | .NORMALIZED_SPACE => some "_normalized_space"
  | .ONE_OF => some "_one_of"
  | .OR => some "_or"
  | .PREVIOUS_SIBLING => some "_previous_sibling"
  | .STRING => some "_string_function"
  | .THIS_NODE => some "_this_node"
  | .UNION => some "_union"
  | .WHERE => some "_where"
  | _ => none

/-- getattr(self, render_method_name) applied to the resolved arguments:
the method named by each dispatch-table entry.  Every name the table
holds is a real method, so the lookup itself cannot fail; an unlisted
name is unreachable and mapped to a TypeError for totality. -/
def callMethod (exact : Bool) : String → List Resolved → Except RenderError String
  | "_anywhere" => _anywhere
  | "_attribute" => _attribute
  | "_child" => _child
  | "_contains" => _contains
  | "_descendant" => _descendant
  | "_equality" => _equality
  | "_inverse" => _inverse
  | "_is" => _is exact
  | "_normalized_space" => _normalized_space
  | "_one_of" => _one_of
  | "_or" => _or
  | "_previous_sibling" => _previous_sibling
  | "_string_function" => _string_function
  | "_this_node" => _this_node
  | "_union" => _union
  | "_where" => _where
  | _ => fun _ => .error .typeError

end Renderer

mutual

/-- Renderer.render: resolve every argument, look the kind up in the
dispatch table (KeyError when absent), and apply the render method. -/
def render (exact : Bool) : Expression → Except RenderError String
  | .mk kind arguments => do
      let args ← convertArguments exact arguments
      match Renderer._RENDER_METHOD_NAMES kind with
      | Option.none => .error (.keyError kind)
      | some name => Renderer.callMethod exact name args

/-- Renderer._convert_argument: a nested expression is rendered
recursively, a list element-wise, a plain string is quoted, a Literal
yields its raw value, and any other value falls through to None. -/
def convertArgument (exact : Bool) : Argument → Except RenderError Resolved
  | .expr e => do
      let s ← render exact e
      .ok (.str s)
  | .seq elems => do
      let rs ← convertArguments exact elems
      .ok (.seq rs)
  | .text s => .ok (.str (Renderer._string_literal s))
  | .lit v => .ok (.str v)
  | .other => .ok .none

/-- The list comprehension resolving a node's arguments in order; the
first failure aborts the render call. -/
def convertArguments (exact : Bool) : List Argument → Except RenderError (List Resolved)
  | [] => .ok []
  | a :: rest => do
      let r ← convertArgument exact a
      let rs ← convertArguments exact rest
      .ok (r :: rs)

end

/-- to_xpath: the module-level entry point, defaulting to approximate
matching. -/
def to_xpath (node : Expression) (exact : Bool := false) : Except RenderError String :=
  render exact node

/-- The canonical current-context root node from the DSL layer. -/
def current : Expression := .mk .THIS_NODE []

/-- Modelled from the spec: the attr combinator of the missing expression
module, ATTR(self, Literal(name)). -/
def Expression.attr (e : Expression) (attribute_name : String) : Expression :=
  .mk .ATTR [.expr e, .lit attribute_name]

/-- Modelled from the spec: the descendant combinator of the missing
expression module, DESCENDANT(self, list of Literal(name) for each
name); zero names allowed. -/
def Expression.descendant (e : Expression) (names : List String) : Expression :=
  .mk .DESCENDANT [.expr e, .seq (names.map .lit)]

/-- Modelled from the spec: the operand list an expression contributes to
a union: a UNION node contributes its own operands (flatten rather than
nest), any other node contributes itself. -/
def unionOperands (e : Expression) : List Argument :=
  if e.kind = ExpressionKind.UNION then e.arguments else [.expr e]

/-- Modelled from the spec: the binary union combinator (the + operator)
of the missing expression module; if either operand is already a UNION it
is flattened rather than nested. -/
def Expression.union (a b : Expression) : Expression :=
  .mk .UNION (unionOperands a ++ unionOperands b)

mutual

/-- Whether a tree has a node of the mode-sensitive IS kind anywhere. -/
def mentionsIs : Expression → Bool
  | .mk kind arguments => decide (kind = ExpressionKind.IS) || mentionsIsArgs arguments

/-- Whether an argument holds a node of the IS kind anywhere. -/
def mentionsIsArg : Argument → Bool
  | .expr e => mentionsIs e
  | .seq elems => mentionsIsArgs elems
  | .lit _ => false
  | .text _ => false
  | .other => false

/-- Whether an argument list holds a node of the IS kind anywhere. -/
def mentionsIsArgs : List Argument → Bool
  | [] => false
  | a :: rest => mentionsIsArg a || mentionsIsArgs rest

end

/-- The renderer object: its only attribute is the exact flag set by
__init__ and read by _is; no method assigns to it. -/
structure Renderer where
  exact : Bool

mutual

/-- Renderer.render with the object state threaded explicitly: every
attribute read goes through the state returned by the previous step, so a
mutation anywhere would be observable in the result state. -/
def renderS (r : Renderer) : Expression → Except RenderError String × Renderer
  | .mk kind arguments =>
      match convertArgumentsS r arguments with
      | (.error err, r1) => (.error err, r1)
      | (.ok args, r1) =>
          match Renderer._RENDER_METHOD_NAMES kind with
          | Option.none => (.error (.keyError kind), r1)
          | some method_name => (Renderer.callMethod r1.exact method_name args, r1)

/-- Renderer._convert_argument with the object state threaded
explicitly. -/
def convertArgumentS (r : Renderer) : Argument → Except RenderError Resolved × Renderer
  | .expr e =>
      match renderS r e with
      | (.ok s, r1) => (.ok (.str s), r1)
      | (.error err, r1) => (.error err, r1)
  | .seq elems =>
      match convertArgumentsS r elems with
      | (.ok rs, r1) => (.ok (.seq rs), r1)
      | (.error err, r1) => (.error err, r1)
  | .text s => (.ok (.str (Renderer._string_literal s)), r)
  | .lit v => (.ok (.str v), r)
  | .other => (.ok .none, r)

/-- The argument-resolution list comprehension with the object state
threaded explicitly, left to right. -/
def convertArgumentsS (r : Renderer) :
    List Argument → Except RenderError (List Resolved) × Renderer
  | [] => (.ok [], r)
  | a :: rest =>
      match convertArgumentS r a with
      | (.error err, r1) => (.error err, r1)
      | (.ok v, r1) =>
          match convertArgumentsS r1 rest with
          | (.error err, r2) => (.error err, r2)
          | (.ok vs, r2) => (.ok (v :: vs), r2)

end

section HelperLemmas

theorem except_bind_ok {α β ε : Type} (a : α) (f : α → Except ε β) :
    (Except.ok a >>= f) = f a := rfl

theorem except_bind_error {α β ε : Type} (err : ε) (f : α → Except ε β) :
    ((Except.error err : Except ε α) >>= f) = .error err := rfl

theorem render_mk (exact : Bool) (kind : ExpressionKind) (arguments : List Argument) :
    render exact (.mk kind arguments) =
      (convertArguments exact arguments) >>= fun args =>
        match Renderer._RENDER_METHOD_NAMES kind with
        | Option.none => .error (.keyError kind)
        | some method_name => Renderer.callMethod exact method_name args := rfl

theorem convertArguments_nil (exact : Bool) : convertArguments exact [] = .ok [] := rfl

theorem convertArguments_cons (exact : Bool) (a : Argument) (rest : List Argument) :
    convertArguments exact (a :: rest) =
      (convertArgument exact a) >>= fun r =>
        (convertArguments exact rest) >>= fun rs => .ok (r :: rs) := rfl

theorem convertArgument_expr (exact : Bool) (e : Expression) :
    convertArgument exact (.expr e) = (render exact e) >>= fun s => .ok (.str s) := rfl

theorem convertArgument_lit (exact : Bool) (v : String) :
    convertArgument exact (.lit v) = .ok (.str v) := rfl

theorem convertArgument_text (exact : Bool) (s : String) :
    convertArgument exact (.text s) = .ok (.str ("'" ++ s ++ "'")) := rfl

theorem convertArguments_lit_map (exact : Bool) (names : List String) :
    convertArguments exact (names.map Argument.lit) = .ok (names.map Resolved.str) := by
  induction names with
  | nil => rfl
  | cons n rest ih =>
      simp only [List.map_cons, convertArguments_cons, convertArgument_lit, ih, except_bind_ok]

/-- Resolving a list of nested expressions whose renders succeed yields
the rendered strings in order. -/
theorem convertArguments_expr_map (exact : Bool) (es : List Expression) (ss : List String)
    (h : List.Forall₂ (fun e s => render exact e = .ok s) es ss) :
    convertArguments exact (es.map Argument.expr) = .ok (ss.map Resolved.str) := by
  induction h with
  | nil => rfl
  | cons h1 _ ih =>
      simp only [List.map_cons, convertArguments_cons, convertArgument_expr, h1, ih,
        except_bind_ok]

theorem intercalate_go_shift (sep : String) (as : List String) :
    ∀ acc b : String, String.intercalate.go (b ++ acc) sep as = b ++ String.intercalate.go acc sep as := by
  induction as with
  | nil => intro acc b; rfl
  | cons a rest ih =>
      intro acc b
      show String.intercalate.go (b ++ acc ++ sep ++ a) sep rest =
        b ++ String.intercalate.go (acc ++ sep ++ a) sep rest
      rw [String.append_assoc, String.append_assoc, ← String.append_assoc acc sep a]
      exact ih (acc ++ sep ++ a) b

theorem intercalate_cons_cons (sep s t : String) (rest : List String) :
    String.intercalate sep (s :: t :: rest) = s ++ sep ++ String.intercalate sep (t :: rest) := by
  show String.intercalate.go ((s ++ sep) ++ t) sep rest = (s ++ sep) ++ String.intercalate.go t sep rest
  exact intercalate_go_shift sep rest t (s ++ sep)

theorem pyJoin_str_map (sep : String) (ss : List String) :
    pyJoin sep (ss.map Resolved.str) = .ok (String.intercalate sep ss) := by
  induction ss with
  | nil => rfl
  | cons s rest ih =>
      cases rest with
      | nil => rfl
      | cons t rest2 =>
          simp only [List.map_cons] at ih ⊢
          rw [pyJoin, ih, intercalate_cons_cons]
          rfl

end HelperLemmas

section DispatchLemmas

theorem convertArgument_seq (exact : Bool) (elems : List Argument) :
    convertArgument exact (.seq elems) =
      (convertArguments exact elems) >>= fun rs => .ok (.seq rs) := rfl

theorem callMethod_anywhere (exact : Bool) :
    Renderer.callMethod exact "_anywhere" = Renderer._anywhere := rfl

theorem callMethod_attribute (exact : Bool) :
    Renderer.callMethod exact "_attribute" = Renderer._attribute := rfl

theorem callMethod_child (exact : Bool) :
    Renderer.callMethod exact "_child" = Renderer._child := rfl

theorem callMethod_contains (exact : Bool) :
    Renderer.callMethod exact "_contains" = Renderer._contains := rfl

theorem callMethod_descendant (exact : Bool) :
    Renderer.callMethod exact "_descendant" = Renderer._descendant := rfl

theorem callMethod_equality (exact : Bool) :
    Renderer.callMethod exact "_equality" = Renderer._equality := rfl

theorem callMethod_inverse (exact : Bool) :
    Renderer.callMethod exact "_inverse" = Renderer._inverse := rfl

theorem callMethod_is (exact : Bool) :
    Renderer.callMethod exact "_is" = Renderer._is exact := rfl

theorem callMethod_normalized_space (exact : Bool) :
    Renderer.callMethod exact "_normalized_space" = Renderer._normalized_space := rfl

theorem callMethod_one_of (exact : Bool) :
    Renderer.callMethod exact "_one_of" = Renderer._one_of := rfl

theorem callMethod_or (exact : Bool) :
    Renderer.callMethod exact "_or" = Renderer._or := rfl

theorem callMethod_previous_sibling (exact : Bool) :
    Renderer.callMethod exact "_previous_sibling" = Renderer._previous_sibling := rfl

theorem callMethod_string_function (exact : Bool) :
    Renderer.callMethod exact "_string_function" = Renderer._string_function := rfl

theorem callMethod_this_node (exact : Bool) :
    Renderer.callMethod exact "_this_node" = Renderer._this_node := rfl

theorem callMethod_union (exact : Bool) :
    Renderer.callMethod exact "_union" = Renderer._union := rfl

theorem callMethod_where (exact : Bool) :
    Renderer.callMethod exact "_where" = Renderer._where := rfl

end DispatchLemmas

/-- Claim C10: rendering a WHERE node with an empty predicate list yields
exactly the same result as rendering its base expression alone, in every
mode, with no brackets emitted. -/
theorem where_empty_predicates (exact : Bool) (e : Expression) :
    render exact (.mk .WHERE [.expr e]) = render exact e := by
  rw [render_mk, convertArguments_cons, convertArgument_expr, convertArguments_nil]
  cases hr : render exact e with
  | ok s =>
      simp only [except_bind_ok, callMethod_where, Renderer._where, pyStr, List.map_nil,
        String.join, except_bind_error]
      show Renderer._where [Resolved.str s] = Except.ok s
      rw [Renderer._where]
      simp only [List.map_nil, pyStr]
      show Except.ok (s ++ String.join []) = Except.ok s
      rw [show String.join ([] : List String) = "" from rfl, String.append_empty]
  | error err => rfl

/-- Claim C3: rendering a DESCENDANT node dispatches on the length of its
tag-name list: an empty list yields the rendered parent followed by
a double slash and a star, one name n yields the rendered parent followed
by a double slash and n, and more names yield a bracketed self-axis
disjunction in argument order; in particular the three concrete renders
from the current context node. -/
theorem descendant_arity_policy (exact : Bool) (parent : Expression) (s : String)
    (h : render exact parent = .ok s) (names : List String) :
    (names = [] → render exact (parent.descendant names) = .ok (s ++ "//*"))
    ∧ (∀ n, names = [n] → render exact (parent.descendant names) = .ok (s ++ "//" ++ n))
    ∧ (1 < names.length → render exact (parent.descendant names) =
        .ok (s ++ "//*[" ++ String.intercalate " | " (names.map fun n => "self::" ++ n) ++ "]"))
    ∧ render false (current.descendant []) = .ok ".//*"
    ∧ render false (current.descendant ["button"]) = .ok ".//button"
    ∧ render false (current.descendant ["a", "b"]) = .ok ".//*[self::a | self::b]" := by
  have key : render exact (parent.descendant names) =
      Renderer._descendant [.str s, .seq (names.map Resolved.str)] := by
    rw [Expression.descendant, render_mk, convertArguments_cons, convertArgument_expr, h,
      except_bind_ok, except_bind_ok, convertArguments_cons, convertArgument_seq,
      convertArguments_lit_map, except_bind_ok, except_bind_ok, convertArguments_nil,
      except_bind_ok, except_bind_ok]
    rfl
  refine ⟨?_, ?_, ?_, rfl, rfl, rfl⟩
  · intro hn
    subst hn
    rw [key]
    rfl
  · intro n hn
    subst hn
    rw [key]
    rfl
  · intro hlen
    rw [key]
    cases names with
    | nil => simp at hlen
    | cons n1 rest1 =>
        cases rest1 with
        | nil => simp at hlen
        | cons n2 rest2 =>
            show Renderer._descendant
              [.str s, .seq ((n1 :: n2 :: rest2).map Resolved.str)] = _
            rw [Renderer._descendant]
            simp only [pyElems, except_bind_ok, List.map_cons, pyStr, List.map_map]
            rfl

/-- Claim C2: a Literal argument resolves to its raw wrapped string, never
quoted, while a plain text argument is wrapped in single quotes with no
escaping; rendering the equality of the id attribute of the current node
against a quote-free text value v therefore yields a string containing v
surrounded by single quotes verbatim and containing the unquoted
attribute selector.  The quote character is Char.ofNat 39. -/
theorem argument_resolution_quoting (exact : Bool) (raw v : String)
    (_h : Char.ofNat 39 ∉ v.toList) :
    convertArgument exact (.lit raw) = .ok (.str raw)
    ∧ convertArgument exact (.text v) = .ok (.str ("'" ++ v ++ "'"))
    ∧ render exact (.mk .EQUALITY [.expr (current.attr "id"), .text v]) =
        .ok ("./@id = '" ++ v ++ "'")
    ∧ (∃ l r, "./@id = '" ++ v ++ "'" = l ++ ("'" ++ v ++ "'") ++ r)
    ∧ (∃ l r, "./@id = '" ++ v ++ "'" = l ++ "@id" ++ r) := by
  refine ⟨rfl, rfl, rfl, ⟨"./@id = ", "", ?_⟩, ⟨"./", " = '" ++ v ++ "'", ?_⟩⟩
  · rw [String.append_empty]
    rfl
  · rfl

/-- Claim C2 witness at the concrete quote-free value submit. -/
theorem argument_resolution_quoting_witness :
    (Char.ofNat 39 ∉ "submit".toList)
    ∧ (render true (.mk .EQUALITY [.expr (current.attr "id"), .text "submit"]) =
        .ok ("./@id = '" ++ "submit" ++ "'")) := by
  refine ⟨by decide, (argument_resolution_quoting true "id" "submit" (by decide)).2.2.1⟩

/-- Claim C8 counterexample: an ANYWHERE node whose argument is a value of
unsupported type is not a fatal rendering error; the argument resolves to
None and is silently coerced into the output text. -/
theorem shape_error_counterexample :
    render false (.mk .ANYWHERE [.other]) = .ok "//None" := rfl

/-- Claim C8 as amended: a wrong argument count is a fatal rendering error
(a TypeError from calling the render method), but an argument whose type
after resolution is not a nested Expression, a Literal, a plain string, or
a list of such values resolves to None and is silently interpolated into
the output as the text None wherever the template formats it directly. -/
theorem shape_error_amended (exact : Bool) (v : String) :
    convertArgument exact .other = .ok .none
    ∧ render exact (.mk .ANYWHERE [.other]) = .ok "//None"
    ∧ render exact (.mk .THIS_NODE [.text v]) = .error .typeError
    ∧ render exact (.mk .ATTR [.text v]) = .error .typeError
    ∧ render exact (.mk .EQUALITY [.text v]) = .error .typeError :=
  ⟨rfl, rfl, rfl, rfl, rfl⟩

/-- Claim C9: a node whose kind has no entry in the dispatch table renders
to a fatal error, never through a fallback template; when the arguments
resolve successfully the error is precisely the lookup KeyError carrying
the offending kind. -/
theorem unknown_kind_fatal (exact : Bool) (kind : ExpressionKind) (args : List Argument)
    (h : Renderer._RENDER_METHOD_NAMES kind = Option.none) :
    (∃ err, render exact (.mk kind args) = .error err)
    ∧ ∀ rs, convertArguments exact args = .ok rs →
        render exact (.mk kind args) = .error (.keyError kind) := by
  constructor
  · cases hc : convertArguments exact args with
    | error err => exact ⟨err, by rw [render_mk, hc]; rfl⟩
    | ok rs => exact ⟨.keyError kind, by rw [render_mk, hc, except_bind_ok, h]⟩
  · intro rs hc
    rw [render_mk, hc, except_bind_ok, h]

/-- Claim C9 witness at the prefix-match kind, which the dispatch table
does not map. -/
theorem unknown_kind_fatal_witness :
    Renderer._RENDER_METHOD_NAMES ExpressionKind.STARTS_WITH = Option.none
    ∧ render false (.mk .STARTS_WITH []) = .error (.keyError .STARTS_WITH) :=
  ⟨rfl, (unknown_kind_fatal false .STARTS_WITH [] rfl).2 [] rfl⟩

theorem convertArguments_text_map (exact : Bool) (vs : List String) :
    convertArguments exact (vs.map Argument.text) =
      .ok (vs.map fun v => Resolved.str ("'" ++ v ++ "'")) := by
  induction vs with
  | nil => rfl
  | cons v rest ih =>
      simp only [List.map_cons, convertArguments_cons, convertArgument_text, ih, except_bind_ok]

/-- Claim C4: rendering WHERE with base n and predicates p1..pk yields the
rendered base immediately followed by each rendered predicate wrapped in
square brackets, in argument-list order. -/
theorem where_predicate_accumulation (exact : Bool) (n : Expression) (s : String)
    (h : render exact n = .ok s) (ps : List Expression) (ts : List String)
    (hp : List.Forall₂ (fun p t => render exact p = .ok t) ps ts) :
    render exact (.mk .WHERE (.expr n :: ps.map .expr)) =
      .ok (s ++ String.join (ts.map fun t => "[" ++ t ++ "]")) := by
  rw [render_mk, convertArguments_cons, convertArgument_expr, h, except_bind_ok, except_bind_ok,
    convertArguments_expr_map exact ps ts hp, except_bind_ok, except_bind_ok]
  show Renderer._where (.str s :: ts.map Resolved.str) = _
  rw [Renderer._where]
  simp only [List.map_map, Function.comp_def, pyStr]

/-- Claim C4 witness: the current node filtered by two concrete
predicates, in order. -/
theorem where_predicate_accumulation_witness :
    render false (.mk .WHERE [.expr current,
        .expr (.mk .INVERSE [.expr current]), .expr (.mk .STRING [.expr current])]) =
      .ok ("." ++ String.join ((["not(.)", "string(.)"] : List String).map fun t => "[" ++ t ++ "]")) :=
  where_predicate_accumulation false current "." rfl
    [.mk .INVERSE [.expr current], .mk .STRING [.expr current]]
    ["not(.)", "string(.)"] (.cons rfl (.cons rfl .nil))

/-- Claim C6: rendering ONE_OF with left operand a and text values v1..vk
yields the equality clauses joined with or in value order, each text value
quoted, with no enclosing parentheses; rendering OR wraps the joined
clauses in parentheses. -/
theorem one_of_no_parens (exact : Bool) (a : Expression) (sa : String)
    (ha : render exact a = .ok sa) (vs : List String)
    (es : List Expression) (ss : List String)
    (hb : List.Forall₂ (fun e s => render exact e = .ok s) es ss) :
    render exact (.mk .ONE_OF (.expr a :: vs.map .text)) =
      .ok (String.intercalate " or " (vs.map fun v => sa ++ " = '" ++ v ++ "'"))
    ∧ render exact (.mk .OR (es.map .expr)) =
      .ok ("(" ++ String.intercalate " or " ss ++ ")") := by
  constructor
  · rw [render_mk, convertArguments_cons, convertArgument_expr, ha, except_bind_ok,
      except_bind_ok, convertArguments_text_map, except_bind_ok, except_bind_ok]
    show Renderer._one_of (.str sa :: vs.map fun v => Resolved.str ("'" ++ v ++ "'")) = _
    rw [Renderer._one_of]
    simp only [List.map_map, Function.comp_def, pyStr]
    have hfun : (fun v : String => sa ++ " = " ++ ("'" ++ v ++ "'")) =
        fun v : String => sa ++ " = '" ++ v ++ "'" := by
      funext v
      rw [← String.append_assoc, ← String.append_assoc, String.append_assoc sa]
      rfl
    rw [hfun]
  · rw [render_mk, convertArguments_expr_map exact es ss hb, except_bind_ok]
    show Renderer._or (ss.map Resolved.str) = _
    rw [Renderer._or, pyJoin_str_map]
    rfl

/-- Claim C6 witness: one concrete ONE_OF over two values and one concrete
OR over two rendered operands. -/
theorem one_of_no_parens_witness :
    render false (.mk .ONE_OF [.expr current, .text "a", .text "b"]) =
      .ok (String.intercalate " or " ((["a", "b"] : List String).map fun v => "." ++ " = '" ++ v ++ "'"))
    ∧ render false (.mk .OR [.expr current, .expr (.mk .INVERSE [.expr current])]) =
      .ok ("(" ++ String.intercalate " or " [".", "not(.)"] ++ ")") :=
  one_of_no_parens false current "." rfl ["a", "b"]
    [current, .mk .INVERSE [.expr current]] [".", "not(.)"]
    (.cons rfl (.cons rfl .nil))

/-- Claim C5: union construction flattens, so building with + either
left-associated or right-associated from three non-union operands yields
the single UNION node over the three operands, and rendering that node
joins the three rendered operands with the vertical-bar separator in
argument order. -/
theorem union_flattening (exact : Bool) (a b c : Expression) (sa sb sc : String)
    (ha : render exact a = .ok sa) (hb : render exact b = .ok sb)
    (hc : render exact c = .ok sc)
    (hka : a.kind ≠ ExpressionKind.UNION) (hkb : b.kind ≠ ExpressionKind.UNION)
    (hkc : c.kind ≠ ExpressionKind.UNION) :
    ((a.union b).union c = .mk .UNION [.expr a, .expr b, .expr c])
    ∧ (a.union (b.union c) = .mk .UNION [.expr a, .expr b, .expr c])
    ∧ render exact (.mk .UNION [.expr a, .expr b, .expr c]) =
        .ok (sa ++ " | " ++ sb ++ " | " ++ sc) := by
  have oa : unionOperands a = [.expr a] := by rw [unionOperands, if_neg hka]
  have ob : unionOperands b = [.expr b] := by rw [unionOperands, if_neg hkb]
  have oc : unionOperands c = [.expr c] := by rw [unionOperands, if_neg hkc]
  refine ⟨?_, ?_, ?_⟩
  · show Expression.mk .UNION (unionOperands (a.union b) ++ unionOperands c) = _
    rw [show unionOperands (a.union b) = unionOperands a ++ unionOperands b from rfl,
      oa, ob, oc]
    rfl
  · show Expression.mk .UNION (unionOperands a ++ unionOperands (b.union c)) = _
    rw [show unionOperands (b.union c) = unionOperands b ++ unionOperands c from rfl,
      oa, ob, oc]
    rfl
  · rw [render_mk, convertArguments_cons, convertArgument_expr, ha, except_bind_ok,
      except_bind_ok, convertArguments_cons, convertArgument_expr, hb, except_bind_ok,
      except_bind_ok, convertArguments_cons, convertArgument_expr, hc, except_bind_ok,
      except_bind_ok, convertArguments_nil, except_bind_ok, except_bind_ok, except_bind_ok,
      except_bind_ok]
    show Renderer._union [.str sa, .str sb, .str sc] = _
    show Except.ok (sa ++ " | " ++ (sb ++ " | " ++ sc)) = _
    rw [← String.append_assoc, ← String.append_assoc]

/-- Claim C5 witness at three concrete non-union operands. -/
theorem union_flattening_witness :
    ((current.union (Expression.mk .INVERSE [.expr current])).union
        (.mk .STRING [.expr current]) =
      .mk .UNION [.expr current, .expr (.mk .INVERSE [.expr current]),
        .expr (.mk .STRING [.expr current])])
    ∧ (current.union ((Expression.mk .INVERSE [.expr current]).union
        (.mk .STRING [.expr current])) =
      .mk .UNION [.expr current, .expr (.mk .INVERSE [.expr current]),
        .expr (.mk .STRING [.expr current])])
    ∧ render false (.mk .UNION [.expr current, .expr (.mk .INVERSE [.expr current]),
        .expr (.mk .STRING [.expr current])]) =
      .ok ("." ++ " | " ++ "not(.)" ++ " | " ++ "string(.)") :=
  union_flattening false current (.mk .INVERSE [.expr current]) (.mk .STRING [.expr current])
    "." "not(.)" "string(.)" rfl rfl rfl
    (fun h => nomatch h) (fun h => nomatch h) (fun h => nomatch h)


theorem dispatch_mode_indep (kind : ExpressionKind) (hk : kind ≠ ExpressionKind.IS)
    (args : List Resolved) :
    (match Renderer._RENDER_METHOD_NAMES kind with
      | Option.none => Except.error (RenderError.keyError kind)
      | some method_name => Renderer.callMethod true method_name args)
    = (match Renderer._RENDER_METHOD_NAMES kind with
      | Option.none => Except.error (RenderError.keyError kind)
      | some method_name => Renderer.callMethod false method_name args) := by
  cases kind <;> first | rfl | exact absurd rfl hk

mutual

theorem render_mode_indep : ∀ e : Expression, mentionsIs e = false →
    render true e = render false e
  | .mk kind arguments, h => by
      rw [mentionsIs, Bool.or_eq_false_iff] at h
      have hk : kind ≠ ExpressionKind.IS := of_decide_eq_false h.1
      rw [render_mk, render_mk, convertArguments_mode_indep arguments h.2]
      exact congrArg _ (funext fun args => dispatch_mode_indep kind hk args)

theorem convertArgument_mode_indep : ∀ a : Argument, mentionsIsArg a = false →
    convertArgument true a = convertArgument false a
  | .expr e, h => by
      rw [convertArgument_expr, convertArgument_expr,
        render_mode_indep e (by rwa [mentionsIsArg] at h)]
  | .seq elems, h => by
      rw [convertArgument_seq, convertArgument_seq,
        convertArguments_mode_indep elems (by rwa [mentionsIsArg] at h)]
  | .lit _, _ => rfl
  | .text _, _ => rfl
  | .other, _ => rfl

theorem convertArguments_mode_indep : ∀ l : List Argument, mentionsIsArgs l = false →
    convertArguments true l = convertArguments false l
  | [], _ => rfl
  | a :: rest, h => by
      rw [mentionsIsArgs, Bool.or_eq_false_iff] at h
      rw [convertArguments_cons, convertArguments_cons,
        convertArgument_mode_indep a h.1, convertArguments_mode_indep rest h.2]

end

/-- Claim C1: rendering an IS node in exact mode yields exactly the
rendering of the EQUALITY node over the same operands, rendering it in
approximate mode yields exactly the rendering of the CONTAINS node over
the same operands, and on any tree free of IS nodes the mode flag changes
nothing. -/
theorem is_mode_sensitivity (a b : Argument) (e : Expression)
    (h : mentionsIs e = false) :
    render true (.mk .IS [a, b]) = render true (.mk .EQUALITY [a, b])
    ∧ render false (.mk .IS [a, b]) = render false (.mk .CONTAINS [a, b])
    ∧ render true e = render false e := by
  refine ⟨?_, ?_, render_mode_indep e h⟩
  · rw [render_mk, render_mk]
    apply congrArg
    funext args
    show Renderer._is true args = Renderer._equality args
    match args with
    | [] => rfl
    | [x] => rfl
    | [x, y] => rfl
    | x :: y :: z :: rest => rfl
  · rw [render_mk, render_mk]
    apply congrArg
    funext args
    show Renderer._is false args = Renderer._contains args
    match args with
    | [] => rfl
    | [x] => rfl
    | [x, y] => rfl
    | x :: y :: z :: rest => rfl

/-- Claim C1 witness at concrete operands and a concrete IS-free tree. -/
theorem is_mode_sensitivity_witness :
    render true (.mk .IS [.text "x", .text "y"]) =
      render true (.mk .EQUALITY [.text "x", .text "y"])
    ∧ render false (.mk .IS [.text "x", .text "y"]) =
      render false (.mk .CONTAINS [.text "x", .text "y"])
    ∧ render true (current.attr "id") = render false (current.attr "id") :=
  is_mode_sensitivity (.text "x") (.text "y") (current.attr "id") rfl

/-- Claim C3 witness at a concrete parent and two names, discharging the
render hypothesis and the length bound. -/
theorem descendant_arity_policy_witness :
    render true (current.descendant ["a", "b"]) =
      .ok ("." ++ "//*[" ++
        String.intercalate " | " ((["a", "b"] : List String).map fun n => "self::" ++ n) ++ "]") :=
  (descendant_arity_policy true current "." rfl ["a", "b"]).2.2.1 (by decide)


mutual

theorem renderS_spec : ∀ (e : Expression) (r : Renderer),
    renderS r e = (render r.exact e, r)
  | .mk kind arguments, r => by
      rw [renderS, convertArgumentsS_spec arguments r, render_mk]
      cases hc : convertArguments r.exact arguments with
      | error err => rfl
      | ok args =>
          cases ht : Renderer._RENDER_METHOD_NAMES kind with
          | none => rfl
          | some method_name => rfl

theorem convertArgumentS_spec : ∀ (a : Argument) (r : Renderer),
    convertArgumentS r a = (convertArgument r.exact a, r)
  | .expr e, r => by
      rw [convertArgumentS, renderS_spec e r, convertArgument_expr]
      cases h : render r.exact e with
      | ok s => rfl
      | error err => rfl
  | .seq elems, r => by
      rw [convertArgumentS, convertArgumentsS_spec elems r, convertArgument_seq]
      cases h : convertArguments r.exact elems with
      | ok rs => rfl
      | error err => rfl
  | .text s, r => rfl
  | .lit v, r => rfl
  | .other, r => rfl

theorem convertArgumentsS_spec : ∀ (l : List Argument) (r : Renderer),
    convertArgumentsS r l = (convertArguments r.exact l, r)
  | [], r => rfl
  | a :: rest, r => by
      rw [convertArgumentsS, convertArgumentS_spec a r, convertArguments_cons]
      cases h : convertArgument r.exact a with
      | error err => rfl
      | ok v =>
          simp only [convertArgumentsS_spec rest r]
          cases h2 : convertArguments r.exact rest with
          | error err => rfl
          | ok vs => rfl

end

/-- Claim C7: rendering is deterministic and referentially transparent:
the stateful model returns the renderer state unchanged, its output is
the pure function of the tree and the mode flag alone, and a second
render of the same tree from the post-state yields identical text. -/
theorem render_deterministic_pure (T : Expression) (r : Renderer) :
    renderS r T = (render r.exact T, r)
    ∧ (renderS ((renderS r T).2) T).1 = (renderS r T).1
    ∧ (renderS r T).2 = r := by
  refine ⟨renderS_spec T r, ?_, ?_⟩
  · rw [renderS_spec T r, renderS_spec T r]
  · rw [renderS_spec T r]
